import Mathlib

/-!
Verification of the tretorritraffic core against its specification.

The development shallowly embeds the flow-derivation pipeline of
`scripts/enrich_flows.js` (geodesic length estimator, segment capacity
resolver, BPR-based flow derivation engine) together with the snapshot
bucketing and range-selection logic of `frontend/src/App.tsx`.
JavaScript numbers are modelled as real numbers, nullable values as
`Option`, and the static segment configuration of `src/segments.js`
is embedded verbatim.
-/

namespace Traffic

noncomputable section

/-! ### Geodesic length estimator (`scripts/enrich_flows.js`) -/

structure Coordinate where
  latitude : ℝ
  longitude : ℝ

def toRadians (value : ℝ) : ℝ := value * Real.pi / 180

/-- Model of JavaScript `Math.atan2 y x`: the argument of the complex
number `x + y i`, in `(-π, π]`, with `atan2 0 0 = 0`. -/
def atan2 (y x : ℝ) : ℝ := Complex.arg ⟨x, y⟩

def haversineDistanceMeters (a b : Coordinate) : ℝ :=
  let R : ℝ := 6371000
  let lat1 := toRadians a.latitude
  let lat2 := toRadians b.latitude
  let deltaLat := lat2 - lat1
  let deltaLon := toRadians (b.longitude - a.longitude)
  let sinLat := Real.sin (deltaLat / 2)
  let sinLon := Real.sin (deltaLon / 2)
  let h := sinLat * sinLat + Real.cos lat1 * Real.cos lat2 * sinLon * sinLon
  let c := 2 * atan2 (Real.sqrt h) (Real.sqrt (1 - h))
  R * c

/-- The accumulation loop of `computeSegmentLengthMeters`:
`total += haversineDistanceMeters(endpoints[i], endpoints[i+1])`. -/
def sumConsecutive : List Coordinate → ℝ
  | a :: b :: rest => haversineDistanceMeters a b + sumConsecutive (b :: rest)
  | _ => 0

def computeSegmentLengthMeters (endpoints : Option (List Coordinate)) : Option ℝ :=
  match endpoints with
  | none => none
  | some pts => if pts.length < 2 then none else some (sumConsecutive pts)

/-! ### Segment configuration (`src/segments.js`) -/

structure FlowModelConfig where
  alpha : ℝ
  beta : ℝ

structure SegmentMetadata where
  lanes : Option ℝ := none
  laneCapacityVph : Option ℝ := none
  speedLimitKph : Option ℝ := none
  allowedDirections : Option (List String) := none
  flowModel : Option FlowModelConfig := none

structure Segment where
  id : String
  name : String
  endpoints : List Coordinate
  metadata : Option SegmentMetadata := none

def viaDonLuigiSturzo : Segment where
  id := "via-don-luigi-sturzo"
  name := "Via Don Luigi Sturzo"
  endpoints := [⟨45.5199214, 9.3261225⟩, ⟨45.5184196, 9.3209463⟩]
  metadata := some
    { lanes := some 2
      laneCapacityVph := some 900
      speedLimitKph := some 40
      allowedDirections := some ["forward", "reverse"] }

def viaSantAmbrogio : Segment where
  id := "via-sant-ambrogio"
  name := "Via Sant'Ambrogio"
  endpoints := [⟨45.5185424, 9.3228744⟩, ⟨45.5178105, 9.3229557⟩]
  metadata := some
    { lanes := some 1
      laneCapacityVph := some 750
      speedLimitKph := some 30
      allowedDirections := some ["forward", "reverse"] }

def viaDonLorenzoMilani : Segment where
  id := "via-don-lorenzo-milani"
  name := "Via Don Lorenzo Milani"
  endpoints := [⟨45.5164186, 9.3214657⟩, ⟨45.5178105, 9.3229557⟩]
  metadata := some
    { lanes := some 1
      laneCapacityVph := some 800
      speedLimitKph := some 30
      allowedDirections := some ["forward", "reverse"] }

def viaPontida : Segment where
  id := "via-pontida"
  name := "Via Pontida"
  endpoints := [⟨45.5178105, 9.3229557⟩, ⟨45.5179955, 9.327145⟩]
  metadata := some
    { lanes := some 1
      laneCapacityVph := some 750
      speedLimitKph := some 30
      allowedDirections := some ["forward", "reverse"] }

def viaFilippoCorridoni : Segment where
  id := "via-filippo-corridoni"
  name := "Via Filippo Corridoni"
  endpoints := [⟨45.5199214, 9.3261225⟩, ⟨45.5168092, 9.326232⟩]
  metadata := some
    { lanes := some 2
      laneCapacityVph := some 950
      speedLimitKph := some 40
      allowedDirections := some ["forward"] }

def viaLeonardoDaVinci : Segment where
  id := "via-leonardo-da-vinci"
  name := "Via Leonardo da Vinci"
  endpoints := [⟨45.5229429, 9.3268608⟩, ⟨45.5149157, 9.3274149⟩]
  metadata := some
    { lanes := some 2
      laneCapacityVph := some 1000
      speedLimitKph := some 50
      allowedDirections := some ["forward", "reverse"] }

def viaDonPrimoMazzolari : Segment where
  id := "via-don-primo-mazzolari"
  name := "Via Don Primo Mazzolari"
  endpoints := [⟨45.5169218, 9.3269703⟩, ⟨45.5168306, 9.3265576⟩]
  metadata := some
    { lanes := some 1
      laneCapacityVph := some 700
      speedLimitKph := some 30
      allowedDirections := some ["forward", "reverse"] }

def viaMilano : Segment where
  id := "via-milano"
  name := "Via Milano"
  endpoints := [⟨45.5201874, 9.3270205⟩, ⟨45.5201311, 9.3305069⟩]
  metadata := some
    { lanes := some 1
      laneCapacityVph := some 800
      speedLimitKph := some 40
      allowedDirections := some ["reverse"] }

def viaMelghera : Segment where
  id := "via-melghera"
  name := "Via Melghera"
  endpoints := [⟨45.5200434, 9.3195364⟩, ⟨45.5203748, 9.3181878⟩]
  metadata := some
    { lanes := some 1
      laneCapacityVph := some 700
      speedLimitKph := some 30
      allowedDirections := some ["forward", "reverse"] }

def viaPadreKolbe : Segment where
  id := "via-padre-kolbe"
  name := "Via Padre Kolbe"
  endpoints := [⟨45.5164186, 9.3214657⟩, ⟨45.5163517, 9.3202809⟩]
  metadata := some
    { lanes := some 1
      laneCapacityVph := some 700
      speedLimitKph := some 30
      allowedDirections := some ["forward", "reverse"] }

def streetSegments : List Segment :=
  [viaDonLuigiSturzo, viaSantAmbrogio, viaDonLorenzoMilani, viaPontida,
   viaFilippoCorridoni, viaLeonardoDaVinci, viaDonPrimoMazzolari, viaMilano,
   viaMelghera, viaPadreKolbe]

/-! ### Segment capacity resolver (`scripts/enrich_flows.js`) -/

structure SegmentMeta where
  id : String
  lengthMeters : Option ℝ
  lanes : ℝ
  capacityVph : ℝ
  speedLimitKph : Option ℝ

/-- One step of the `streetSegments.reduce` that builds `segmentMetadata`:
`lanes = metadata.lanes ?? 1`, `laneCapacity = metadata.laneCapacityVph ?? 900`,
`capacityVph = lanes * laneCapacity`.  Any `flowModel` entry in the metadata
is not read. -/
def resolveSegment (segment : Segment) : SegmentMeta :=
  let lengthMeters := computeSegmentLengthMeters (some segment.endpoints)
  let lanes := (segment.metadata.bind (·.lanes)).getD 1
  let laneCapacity := (segment.metadata.bind (·.laneCapacityVph)).getD 900
  { id := segment.id
    lengthMeters := lengthMeters
    lanes := lanes
    capacityVph := lanes * laneCapacity
    speedLimitKph := segment.metadata.bind (·.speedLimitKph) }

/-- The `reduce` over the segment list; the JS `Map` keyed by `id` is
modelled as the resolved list looked up by `id` (ids are distinct). -/
def buildSegmentMetadata (segments : List Segment) : List SegmentMeta :=
  segments.map resolveSegment

def segmentMetadata : List SegmentMeta := buildSegmentMetadata streetSegments

def lookupSegmentMeta (table : List SegmentMeta) (segmentId : String) :
    Option SegmentMeta :=
  table.find? (fun m => m.id == segmentId)

/-! ### Flow derivation engine (`scripts/enrich_flows.js`) -/

def BPR_ALPHA : ℝ := 0.15
def BPR_BETA : ℝ := 4

structure Sample where
  segmentId : String
  durationSeconds : Option ℝ := none
  staticDurationSeconds : Option ℝ := none

structure FlowMetrics where
  capacityVph : Option ℝ
  lengthMeters : Option ℝ
  freeFlowSpeedKph : Option ℝ
  volumeCapacityRatio : Option ℝ
  derivedFlowVph : Option ℝ
  flowConfidence : String

/-- `lengthMeters != null && staticDuration && staticDuration > 0
? (lengthMeters / staticDuration) * 3.6 : null`. -/
def freeFlowSpeed (lengthMeters staticDuration : Option ℝ) : Option ℝ :=
  match lengthMeters, staticDuration with
  | some len, some sd => if 0 < sd then some (len / sd * 3.6) else none
  | _, _ => none

/-- The BPR inversion block: `volumeCapacityRatio` before the finiteness
guard.  `Math.pow` on a non-negative base is real exponentiation. -/
def rawVcr (timeRatio : ℝ) : ℝ :=
  if 1 < timeRatio then (max ((timeRatio - 1) / BPR_ALPHA) 0) ^ (1 / BPR_BETA)
  else 0

/-- The defensive clamp `if (volumeCapacityRatio < 0) volumeCapacityRatio = 0`.
Over the reals the `Number.isFinite` guards never fire, so they reduce away. -/
def clampNonneg (x : ℝ) : ℝ := if x < 0 then 0 else x

/-- The confidence ladder on a non-null ratio: the
`volumeCapacityRatio == null || derivedFlowVph == null` branch is handled
at the call sites where those fields are `none`. -/
def confLabel (v : ℝ) : String :=
  if v ≤ 0.8 then "high" else if 1.2 < v then "low" else "medium"

def deriveFlowMetricsWith (table : List SegmentMeta) (sample : Sample) :
    FlowMetrics :=
  match lookupSegmentMeta table sample.segmentId with
  | none =>
      { capacityVph := none, lengthMeters := none, freeFlowSpeedKph := none,
        volumeCapacityRatio := none, derivedFlowVph := none,
        flowConfidence := "low" }
  | some meta =>
      match sample.durationSeconds, sample.staticDurationSeconds with
      | some duration, some staticDuration =>
          if duration ≤ 0 ∨ staticDuration ≤ 0 ∨ meta.capacityVph ≤ 0 then
            { capacityVph := some meta.capacityVph
              lengthMeters := meta.lengthMeters
              freeFlowSpeedKph := freeFlowSpeed meta.lengthMeters (some staticDuration)
              volumeCapacityRatio := none, derivedFlowVph := none
              flowConfidence := "low" }
          else
            { capacityVph := some meta.capacityVph
              lengthMeters := meta.lengthMeters
              freeFlowSpeedKph := freeFlowSpeed meta.lengthMeters (some staticDuration)
              volumeCapacityRatio := some (clampNonneg (rawVcr (duration / staticDuration)))
              derivedFlowVph :=
                some (clampNonneg (rawVcr (duration / staticDuration)) * meta.capacityVph)
              flowConfidence := confLabel (clampNonneg (rawVcr (duration / staticDuration))) }
      | _, _ =>
          { capacityVph := some meta.capacityVph
            lengthMeters := meta.lengthMeters
            freeFlowSpeedKph := freeFlowSpeed meta.lengthMeters sample.staticDurationSeconds
            volumeCapacityRatio := none, derivedFlowVph := none
            flowConfidence := "low" }

def deriveFlowMetrics : Sample → FlowMetrics :=
  deriveFlowMetricsWith segmentMetadata

/-- The per-line enrichment record's `flowEstimationModel` field, written by
`enrichSamples`: always the global constants. -/
def flowEstimationModel : FlowModelConfig :=
  { alpha := BPR_ALPHA, beta := BPR_BETA }

end

/-! ### Snapshot bucketing (`frontend/src/App.tsx`) -/

def SNAPSHOT_WINDOW_MINUTES : Nat := 5

/-- A parsed JavaScript `Date`, broken down into calendar components as
`getMinutes`/`setMinutes` see them. -/
structure JSDate where
  year : Int
  month : Nat
  day : Nat
  hour : Nat
  minute : Nat
  second : Nat
  millisecond : Nat
deriving DecidableEq

/-- `date.setMinutes(Math.floor(minutes / 5) * 5, 0, 0)`. -/
def bucketJSDate (d : JSDate) : JSDate :=
  { d with
    minute := d.minute / SNAPSHOT_WINDOW_MINUTES * SNAPSHOT_WINDOW_MINUTES
    second := 0
    millisecond := 0 }

/-- `normaliseTimestampToWindow`, parameterised over the JavaScript `Date`
constructor (`newDate`, returning `none` for an invalid date) and
`toISOString`. -/
def normaliseTimestampToWindow (newDate : String → Option JSDate)
    (toISOString : JSDate → String) (value : String) : String :=
  match newDate value with
  | none => value
  | some date => toISOString (bucketJSDate date)

/-! ### Range selection (`frontend/src/App.tsx`, `activeRange`) -/

inductive TimeWindowPreset
  | LAST_24_HOURS
  | LAST_48_HOURS
  | LAST_7_DAYS
  | FULL_RANGE
  | CUSTOM
deriving DecidableEq

/-- The `activeRange` memo for a non-empty snapshot-group list, with dates
as epoch milliseconds.  `earliest`/`latest` are the first and last bucket
keys; `customStart`/`customEnd` are `none` when absent or unparseable. -/
def activeRange (earliest latest : Int) (preset : TimeWindowPreset)
    (customStart customEnd : Option Int) : Int × Int :=
  let startCandidate : Option Int :=
    match preset with
    | .LAST_24_HOURS => some (latest - 24 * 60 * 60 * 1000)
    | .LAST_48_HOURS => some (latest - 48 * 60 * 60 * 1000)
    | .LAST_7_DAYS => some (latest - 7 * 24 * 60 * 60 * 1000)
    | .FULL_RANGE => some earliest
    | .CUSTOM => customStart
  let endCandidate : Option Int :=
    match preset with
    | .FULL_RANGE => some latest
    | .CUSTOM => customEnd
    | _ => some latest
  let start0 := startCandidate.getD earliest
  let end0 := endCandidate.getD latest
  let start1 := if start0 < earliest then earliest else start0
  let end1 := if latest < end0 then latest else end0
  let end2 := if end1 < start1 then start1 else end1
  (start1, end2)

/-- `activeRange` over the ascending bucket-key list (`none` when empty,
matching the `{start: null, end: null}` branch). -/
def activeRangeOfKeys (keys : List Int) (preset : TimeWindowPreset)
    (customStart customEnd : Option Int) : Option (Int × Int) :=
  match keys, keys.getLast? with
  | k :: _, some l => some (activeRange k l preset customStart customEnd)
  | _, _ => none

/-! ## Helper lemmas -/

lemma BPR_ALPHA_pos : (0 : ℝ) < BPR_ALPHA := by norm_num [BPR_ALPHA]

lemma one_div_BPR_BETA_pos : (0 : ℝ) < 1 / BPR_BETA := by norm_num [BPR_BETA]

lemma rawVcr_nonneg (t : ℝ) : 0 ≤ rawVcr t := by
  unfold rawVcr
  split
  · exact Real.rpow_nonneg (le_max_right _ _) _
  · exact le_refl 0

lemma clampNonneg_of_nonneg {x : ℝ} (h : 0 ≤ x) : clampNonneg x = x :=
  if_neg (not_lt.2 h)

lemma clamp_rawVcr (t : ℝ) : clampNonneg (rawVcr t) = rawVcr t :=
  clampNonneg_of_nonneg (rawVcr_nonneg t)

lemma rawVcr_of_le {t : ℝ} (h : t ≤ 1) : rawVcr t = 0 :=
  if_neg (not_lt.2 h)

lemma rawVcr_of_lt {t : ℝ} (h : 1 < t) :
    rawVcr t = ((t - 1) / BPR_ALPHA) ^ (1 / BPR_BETA) := by
  unfold rawVcr
  rw [if_pos h, max_eq_left (div_nonneg (by linarith) BPR_ALPHA_pos.le)]

lemma rawVcr_mono {t₁ t₂ : ℝ} (h : t₁ ≤ t₂) : rawVcr t₁ ≤ rawVcr t₂ := by
  by_cases h₂ : 1 < t₂
  · rcases le_or_lt t₁ 1 with h₁ | h₁
    · rw [rawVcr_of_le h₁]
      exact rawVcr_nonneg t₂
    · rw [rawVcr_of_lt h₁, rawVcr_of_lt h₂]
      refine Real.rpow_le_rpow (div_nonneg (by linarith) BPR_ALPHA_pos.le) ?_
        one_div_BPR_BETA_pos.le
      exact div_le_div_of_nonneg_right (sub_le_sub_right h 1) BPR_ALPHA_pos.le
  · rw [rawVcr_of_le (le_of_not_lt fun h₁ => h₂ (h₁.trans_le h)),
      rawVcr_of_le (le_of_not_lt h₂)]

lemma pow_four_rpow {b : ℝ} (hb : 0 ≤ b) : ((b ^ (4 : ℕ) : ℝ)) ^ ((4 : ℝ)⁻¹) = b := by
  rw [← Real.rpow_natCast b 4, ← Real.rpow_mul hb]
  rw [show ((4 : ℕ) : ℝ) * (4 : ℝ)⁻¹ = 1 by norm_num, Real.rpow_one]

lemma pow_three_rpow {b : ℝ} (hb : 0 ≤ b) : ((b ^ (3 : ℕ) : ℝ)) ^ ((3 : ℝ)⁻¹) = b := by
  rw [← Real.rpow_natCast b 3, ← Real.rpow_mul hb]
  rw [show ((3 : ℕ) : ℝ) * (3 : ℝ)⁻¹ = 1 by norm_num, Real.rpow_one]

lemma lt_rpow_quarter {a x : ℝ} (ha : 0 ≤ a) (h : a ^ (4 : ℕ) < x) :
    a < x ^ ((4 : ℝ)⁻¹) := by
  have := Real.rpow_lt_rpow (pow_nonneg ha 4) h (by norm_num : (0:ℝ) < (4:ℝ)⁻¹)
  rwa [pow_four_rpow ha] at this

lemma rpow_quarter_lt {x b : ℝ} (hx : 0 ≤ x) (hb : 0 ≤ b) (h : x < b ^ (4 : ℕ)) :
    x ^ ((4 : ℝ)⁻¹) < b := by
  have := Real.rpow_lt_rpow hx h (by norm_num : (0:ℝ) < (4:ℝ)⁻¹)
  rwa [pow_four_rpow hb] at this

lemma rpow_third_lt {x b : ℝ} (hx : 0 ≤ x) (hb : 0 ≤ b) (h : x < b ^ (3 : ℕ)) :
    x ^ ((3 : ℝ)⁻¹) < b := by
  have := Real.rpow_lt_rpow hx h (by norm_num : (0:ℝ) < (3:ℝ)⁻¹)
  rwa [pow_three_rpow hb] at this

/-- Happy-path characterisation of the flow derivation: known segment,
strictly positive durations and capacity. -/
theorem deriveFlow_main {table : List SegmentMeta} {sample : Sample}
    {meta : SegmentMeta} {dur sd : ℝ}
    (hm : lookupSegmentMeta table sample.segmentId = some meta)
    (hd : sample.durationSeconds = some dur)
    (hs : sample.staticDurationSeconds = some sd)
    (hdur : 0 < dur) (hsd : 0 < sd) (hcap : 0 < meta.capacityVph) :
    deriveFlowMetricsWith table sample =
      { capacityVph := some meta.capacityVph
        lengthMeters := meta.lengthMeters
        freeFlowSpeedKph := freeFlowSpeed meta.lengthMeters (some sd)
        volumeCapacityRatio := some (rawVcr (dur / sd))
        derivedFlowVph := some (rawVcr (dur / sd) * meta.capacityVph)
        flowConfidence := confLabel (rawVcr (dur / sd)) } := by
  have hguard : ¬(dur ≤ 0 ∨ sd ≤ 0 ∨ meta.capacityVph ≤ 0) := by
    push_neg
    exact ⟨hdur, hsd, hcap⟩
  simp only [deriveFlowMetricsWith, hm, hd, hs, if_neg hguard, clamp_rawVcr]

/-- Unknown-segment characterisation: every derived field is null. -/
theorem deriveFlow_unknown {table : List SegmentMeta} {sample : Sample}
    (hm : lookupSegmentMeta table sample.segmentId = none) :
    deriveFlowMetricsWith table sample =
      { capacityVph := none, lengthMeters := none, freeFlowSpeedKph := none,
        volumeCapacityRatio := none, derivedFlowVph := none,
        flowConfidence := "low" } := by
  simp only [deriveFlowMetricsWith, hm]

/-- Known segment but a missing duration field: no flow, confidence low,
free-flow speed still computed from whatever static duration is present. -/
theorem deriveFlow_missing {table : List SegmentMeta} {sample : Sample}
    {meta : SegmentMeta}
    (hm : lookupSegmentMeta table sample.segmentId = some meta)
    (hmiss : sample.durationSeconds = none ∨ sample.staticDurationSeconds = none) :
    deriveFlowMetricsWith table sample =
      { capacityVph := some meta.capacityVph
        lengthMeters := meta.lengthMeters
        freeFlowSpeedKph := freeFlowSpeed meta.lengthMeters sample.staticDurationSeconds
        volumeCapacityRatio := none, derivedFlowVph := none
        flowConfidence := "low" } := by
  rcases hd : sample.durationSeconds with _ | dur
  · rcases hs : sample.staticDurationSeconds with _ | sd
    · simp only [deriveFlowMetricsWith, hm, hd, hs]
    · simp only [deriveFlowMetricsWith, hm, hd, hs]
  · rcases hs : sample.staticDurationSeconds with _ | sd
    · simp only [deriveFlowMetricsWith, hm, hd, hs]
    · rcases hmiss with h | h
      · rw [hd] at h
        cases h
      · rw [hs] at h
        cases h

/-- Known segment, both durations present, but a non-positive duration or
capacity: no flow, confidence low, free-flow speed still computed. -/
theorem deriveFlow_degenerate {table : List SegmentMeta} {sample : Sample}
    {meta : SegmentMeta} {dur sd : ℝ}
    (hm : lookupSegmentMeta table sample.segmentId = some meta)
    (hd : sample.durationSeconds = some dur)
    (hs : sample.staticDurationSeconds = some sd)
    (hbad : dur ≤ 0 ∨ sd ≤ 0 ∨ meta.capacityVph ≤ 0) :
    deriveFlowMetricsWith table sample =
      { capacityVph := some meta.capacityVph
        lengthMeters := meta.lengthMeters
        freeFlowSpeedKph := freeFlowSpeed meta.lengthMeters (some sd)
        volumeCapacityRatio := none, derivedFlowVph := none
        flowConfidence := "low" } := by
  simp only [deriveFlowMetricsWith, hm, hd, hs, if_pos hbad]

def pontidaCongested : Sample := ⟨"via-pontida", some 90, some 60⟩

def pontidaFree : Sample := ⟨"via-pontida", some 90, some 120⟩

lemma lookup_pontida :
    lookupSegmentMeta segmentMetadata "via-pontida" = some (resolveSegment viaPontida) := by
  rfl

lemma pontida_capacity : (resolveSegment viaPontida).capacityVph = 750 := by
  norm_num [resolveSegment, viaPontida]

/-- **C1** -/
theorem claim_C1_bpr_inversion :
    (∀ (table : List SegmentMeta) (sample : Sample) (meta : SegmentMeta) (dur sd : ℝ),
      lookupSegmentMeta table sample.segmentId = some meta →
      sample.durationSeconds = some dur →
      sample.staticDurationSeconds = some sd →
      0 < dur → 0 < sd → 0 < meta.capacityVph →
      ((dur / sd ≤ 1 →
          (deriveFlowMetricsWith table sample).volumeCapacityRatio = some 0) ∧
        (1 < dur / sd →
          (deriveFlowMetricsWith table sample).volumeCapacityRatio =
            some (((dur / sd - 1) / BPR_ALPHA) ^ (1 / BPR_BETA))) ∧
        (∀ v, (deriveFlowMetricsWith table sample).volumeCapacityRatio = some v →
          (deriveFlowMetricsWith table sample).derivedFlowVph =
            some (v * meta.capacityVph)))) ∧
    (∃ v f,
      (deriveFlowMetrics pontidaCongested).volumeCapacityRatio = some v ∧
      (deriveFlowMetrics pontidaCongested).derivedFlowVph = some f ∧
      |v - 1.352| < 1 / 1000 ∧ |f - 1014| < 1 ∧
      (deriveFlowMetrics pontidaCongested).capacityVph = some 750 ∧
      (deriveFlowMetrics pontidaCongested).flowConfidence = "low") := by
  constructor
  · intro table sample meta dur sd hm hd hs hdur hsd hcap
    rw [deriveFlow_main hm hd hs hdur hsd hcap]
    refine ⟨fun h => ?_, fun h => ?_, fun v hv => ?_⟩
    · simp [rawVcr_of_le h]
    · simp [rawVcr_of_lt h]
    · have hv' : rawVcr (dur / sd) = v := by simpa using hv
      simp [hv']
  · have hcap : (resolveSegment viaPontida).capacityVph = 750 := pontida_capacity
    have hmain := @deriveFlow_main segmentMetadata pontidaCongested
      (resolveSegment viaPontida) 90 60 lookup_pontida rfl rfl (by norm_num) (by norm_num)
      (by rw [hcap]; norm_num)
    have hvcr : rawVcr ((90 : ℝ) / 60) = ((10 / 3 : ℝ)) ^ ((4 : ℝ)⁻¹) := by
      rw [rawVcr_of_lt (by norm_num)]
      norm_num [BPR_ALPHA, BPR_BETA]
    have hv_lo : (1.3512 : ℝ) < (10 / 3 : ℝ) ^ ((4 : ℝ)⁻¹) :=
      lt_rpow_quarter (by norm_num) (by norm_num)
    have hv_hi : ((10 / 3 : ℝ)) ^ ((4 : ℝ)⁻¹) < 1.352 :=
      rpow_quarter_lt (by norm_num) (by norm_num) (by norm_num)
    refine ⟨(10 / 3 : ℝ) ^ ((4 : ℝ)⁻¹), (10 / 3 : ℝ) ^ ((4 : ℝ)⁻¹) * 750, ?_, ?_, ?_, ?_, ?_, ?_⟩
    · simp only [deriveFlowMetrics]
      rw [hmain, hvcr]
    · simp only [deriveFlowMetrics]
      rw [hmain, hvcr, hcap]
    · rw [abs_lt]
      constructor <;> nlinarith
    · rw [abs_lt]
      constructor <;> nlinarith
    · simp only [deriveFlowMetrics]
      rw [hmain, hcap]
    · simp only [deriveFlowMetrics]
      rw [hmain, hvcr]
      unfold confLabel
      rw [if_neg (by push_neg; nlinarith), if_pos (by nlinarith)]

theorem claim_C1_witness :
    (deriveFlowMetrics pontidaFree).volumeCapacityRatio = some 0 :=
  (claim_C1_bpr_inversion.1 segmentMetadata pontidaFree
    (resolveSegment viaPontida) 90 120 lookup_pontida rfl rfl (by norm_num) (by norm_num)
    (by rw [pontida_capacity]; norm_num)).1 (by norm_num)

/-- **C3** -/
theorem claim_C3_confidence :
    ∀ (table : List SegmentMeta) (sample : Sample),
      (((deriveFlowMetricsWith table sample).volumeCapacityRatio = none ∨
        (deriveFlowMetricsWith table sample).derivedFlowVph = none) →
        (deriveFlowMetricsWith table sample).flowConfidence = "low") ∧
      (∀ v f, (deriveFlowMetricsWith table sample).volumeCapacityRatio = some v →
        (deriveFlowMetricsWith table sample).derivedFlowVph = some f →
        (deriveFlowMetricsWith table sample).flowConfidence =
          if v ≤ 0.8 then "high" else if 1.2 < v then "low" else "medium") := by
  intro table sample
  rcases hm : lookupSegmentMeta table sample.segmentId with _ | meta
  · rw [deriveFlow_unknown hm]
    exact ⟨fun _ => rfl, fun v f hv _ => by cases hv⟩
  · rcases hd : sample.durationSeconds with _ | dur
    · rw [deriveFlow_missing hm (Or.inl hd)]
      exact ⟨fun _ => rfl, fun v f hv _ => by cases hv⟩
    · rcases hs : sample.staticDurationSeconds with _ | sd
      · rw [deriveFlow_missing hm (Or.inr hs)]
        exact ⟨fun _ => rfl, fun v f hv _ => by cases hv⟩
      · by_cases hbad : dur ≤ 0 ∨ sd ≤ 0 ∨ meta.capacityVph ≤ 0
        · rw [deriveFlow_degenerate hm hd hs hbad]
          exact ⟨fun _ => rfl, fun v f hv _ => by cases hv⟩
        · push_neg at hbad
          rw [deriveFlow_main hm hd hs hbad.1 hbad.2.1 hbad.2.2]
          refine ⟨fun h => ?_, fun v f hv _ => ?_⟩
          · rcases h with h | h <;> cases h
          · have hv' : rawVcr (dur / sd) = v := by simpa using hv
            simp only [confLabel, hv']

/-- **C3 witness** -/
theorem claim_C3_witness :
    (deriveFlowMetrics pontidaCongested).flowConfidence =
      if ((10 / 3 : ℝ)) ^ ((4 : ℝ)⁻¹) ≤ 0.8 then "high"
      else if 1.2 < ((10 / 3 : ℝ)) ^ ((4 : ℝ)⁻¹) then "low" else "medium" := by
  have hmain := @deriveFlow_main segmentMetadata pontidaCongested
    (resolveSegment viaPontida) 90 60 lookup_pontida rfl rfl (by norm_num) (by norm_num)
    (by rw [pontida_capacity]; norm_num)
  have hvcr : rawVcr ((90 : ℝ) / 60) = ((10 / 3 : ℝ)) ^ ((4 : ℝ)⁻¹) := by
    rw [rawVcr_of_lt (by norm_num)]
    norm_num [BPR_ALPHA, BPR_BETA]
  exact (claim_C3_confidence segmentMetadata pontidaCongested).2
    (((10 / 3 : ℝ)) ^ ((4 : ℝ)⁻¹)) ((((10 / 3 : ℝ)) ^ ((4 : ℝ)⁻¹)) * 750)
    (by rw [hmain, hvcr]) (by rw [hmain, hvcr, pontida_capacity])

/-- **C4** -/
theorem claim_C4_unknown_segment :
    ∀ (table : List SegmentMeta) (sample : Sample),
      lookupSegmentMeta table sample.segmentId = none →
      deriveFlowMetricsWith table sample =
        { capacityVph := none, lengthMeters := none, freeFlowSpeedKph := none,
          volumeCapacityRatio := none, derivedFlowVph := none, flowConfidence := "low" } :=
  fun _ _ hm => deriveFlow_unknown hm

def ghostSample : Sample := ⟨"via-fantasma", some (-5), some 0⟩

/-- **C4 witness** -/
theorem claim_C4_witness :
    deriveFlowMetrics ghostSample =
      { capacityVph := none, lengthMeters := none, freeFlowSpeedKph := none,
        volumeCapacityRatio := none, derivedFlowVph := none, flowConfidence := "low" } :=
  claim_C4_unknown_segment segmentMetadata ghostSample (by rfl)

/-- **C5** -/
theorem claim_C5_degenerate_flow :
    ∀ (table : List SegmentMeta) (sample : Sample) (meta : SegmentMeta),
      lookupSegmentMeta table sample.segmentId = some meta →
      (sample.durationSeconds = none ∨ sample.staticDurationSeconds = none ∨
        (∃ d, sample.durationSeconds = some d ∧ d ≤ 0) ∨
        (∃ s, sample.staticDurationSeconds = some s ∧ s ≤ 0) ∨
        meta.capacityVph ≤ 0) →
      (deriveFlowMetricsWith table sample).volumeCapacityRatio = none ∧
      (deriveFlowMetricsWith table sample).derivedFlowVph = none ∧
      (deriveFlowMetricsWith table sample).flowConfidence = "low" ∧
      (∀ len sd, meta.lengthMeters = some len →
        sample.staticDurationSeconds = some sd → 0 < sd →
        (deriveFlowMetricsWith table sample).freeFlowSpeedKph = some (len / sd * 3.6)) := by
  intro table sample meta hm hbad
  rcases hd : sample.durationSeconds with _ | dur
  · rw [deriveFlow_missing hm (Or.inl hd)]
    refine ⟨rfl, rfl, rfl, fun len sd hlen hsd hpos => ?_⟩
    rw [hlen, hsd]
    simp [freeFlowSpeed, hpos]
  · rcases hs : sample.staticDurationSeconds with _ | sd
    · rw [deriveFlow_missing hm (Or.inr hs)]
      refine ⟨rfl, rfl, rfl, fun len sd' hlen hsd' hpos => ?_⟩
      cases hsd'
    · have hbad' : dur ≤ 0 ∨ sd ≤ 0 ∨ meta.capacityVph ≤ 0 := by
        rcases hbad with h | h | ⟨d, hd2, hle⟩ | ⟨s, hs2, hle⟩ | h
        · rw [hd] at h
          cases h
        · rw [hs] at h
          cases h
        · rw [hd] at hd2
          exact Or.inl (by rw [Option.some.inj hd2]; exact hle)
        · rw [hs] at hs2
          exact Or.inr (Or.inl (by rw [Option.some.inj hs2]; exact hle))
        · exact Or.inr (Or.inr h)
      rw [deriveFlow_degenerate hm hd hs hbad']
      refine ⟨rfl, rfl, rfl, fun len sd' hlen hsd' hpos => ?_⟩
      have e : sd = sd' := Option.some.inj hsd'
      subst e
      rw [hlen]
      simp [freeFlowSpeed, hpos]

def pontidaNoDuration : Sample := ⟨"via-pontida", none, some 60⟩

/-- **C5 witness** -/
theorem claim_C5_witness :
    (deriveFlowMetrics pontidaNoDuration).volumeCapacityRatio = none ∧
    (deriveFlowMetrics pontidaNoDuration).derivedFlowVph = none ∧
    (deriveFlowMetrics pontidaNoDuration).flowConfidence = "low" ∧
    (deriveFlowMetrics pontidaNoDuration).freeFlowSpeedKph =
      some (sumConsecutive viaPontida.endpoints / 60 * 3.6) := by
  have h := claim_C5_degenerate_flow segmentMetadata pontidaNoDuration
    (resolveSegment viaPontida) lookup_pontida (Or.inl rfl)
  refine ⟨h.1, h.2.1, h.2.2.1, ?_⟩
  exact h.2.2.2 (sumConsecutive viaPontida.endpoints) 60 (by rfl) rfl (by norm_num)

/-- **C6** -/
theorem claim_C6_monotone :
    ∀ (table : List SegmentMeta) (segId : String) (meta : SegmentMeta) (sd d₁ d₂ : ℝ),
      lookupSegmentMeta table segId = some meta →
      0 < meta.capacityVph → 0 < sd → 0 < d₁ → d₁ ≤ d₂ →
      ∃ v₁ v₂,
        (deriveFlowMetricsWith table ⟨segId, some d₁, some sd⟩).volumeCapacityRatio = some v₁ ∧
        (deriveFlowMetricsWith table ⟨segId, some d₂, some sd⟩).volumeCapacityRatio = some v₂ ∧
        v₁ ≤ v₂ := by
  intro table segId meta sd d₁ d₂ hm hcap hsd hd₁ h12
  have h₁ := @deriveFlow_main table ⟨segId, some d₁, some sd⟩ meta d₁ sd hm rfl rfl hd₁ hsd hcap
  have h₂ := @deriveFlow_main table ⟨segId, some d₂, some sd⟩ meta d₂ sd hm rfl rfl
    (lt_of_lt_of_le hd₁ h12) hsd hcap
  refine ⟨rawVcr (d₁ / sd), rawVcr (d₂ / sd), ?_, ?_, ?_⟩
  · rw [h₁]
  · rw [h₂]
  · exact rawVcr_mono (div_le_div_of_nonneg_right h12 hsd.le)

/-- **C6 witness** -/
theorem claim_C6_witness :
    ∃ v₁ v₂,
      (deriveFlowMetricsWith segmentMetadata
        ⟨"via-pontida", some 60, some 60⟩).volumeCapacityRatio = some v₁ ∧
      (deriveFlowMetricsWith segmentMetadata
        ⟨"via-pontida", some 90, some 60⟩).volumeCapacityRatio = some v₂ ∧
      v₁ ≤ v₂ :=
  claim_C6_monotone segmentMetadata "via-pontida" (resolveSegment viaPontida) 60 60 90
    lookup_pontida (by rw [pontida_capacity]; norm_num) (by norm_num) (by norm_num) (by norm_num)

lemma sumConsecutive_eq_zip_sum : ∀ pts : List Coordinate,
    sumConsecutive pts =
      ((pts.zip pts.tail).map fun p => haversineDistanceMeters p.1 p.2).sum
  | [] => by simp [sumConsecutive]
  | [a] => by simp [sumConsecutive]
  | a :: b :: rest => by
      have ih := sumConsecutive_eq_zip_sum (b :: rest)
      simp only [sumConsecutive, List.tail_cons, List.zip_cons_cons, List.map_cons,
        List.sum_cons, ih]

/-- **C7** -/
theorem claim_C7_bucketing :
    (∀ (newDate : String → Option JSDate) (toISOString : JSDate → String)
        (v₁ v₂ : String) (d₁ d₂ : JSDate),
      newDate v₁ = some d₁ → newDate v₂ = some d₂ →
      d₁.year = d₂.year → d₁.month = d₂.month → d₁.day = d₂.day → d₁.hour = d₂.hour →
      d₁.minute / 5 = d₂.minute / 5 →
      normaliseTimestampToWindow newDate toISOString v₁ =
        normaliseTimestampToWindow newDate toISOString v₂) ∧
    bucketJSDate ⟨2024, 3, 12, 10, 2, 13, 0⟩ = ⟨2024, 3, 12, 10, 0, 0, 0⟩ ∧
    bucketJSDate ⟨2024, 3, 12, 10, 4, 59, 0⟩ = ⟨2024, 3, 12, 10, 0, 0, 0⟩ ∧
    bucketJSDate ⟨2024, 3, 12, 10, 5, 0, 0⟩ = ⟨2024, 3, 12, 10, 5, 0, 0⟩ := by
  refine ⟨?_, by decide, by decide, by decide⟩
  intro newDate toISOString v₁ v₂ d₁ d₂ h₁ h₂ hy hmo hd hh hmin
  unfold normaliseTimestampToWindow
  rw [h₁, h₂]
  have hb : bucketJSDate d₁ = bucketJSDate d₂ := by
    cases d₁
    cases d₂
    simp only at hy hmo hd hh hmin
    simp only [bucketJSDate, SNAPSHOT_WINDOW_MINUTES]
    rw [hy, hmo, hd, hh, hmin]
  dsimp only
  rw [hb]

def parse1013 : String → Option JSDate := fun s =>
  if s = "2024-03-12T10:02:13" then some ⟨2024, 3, 12, 10, 2, 13, 0⟩
  else if s = "2024-03-12T10:04:59" then some ⟨2024, 3, 12, 10, 4, 59, 0⟩
  else none

/-- **C7 witness** -/
theorem claim_C7_witness :
    normaliseTimestampToWindow parse1013 (fun _ => "2024-03-12T10:00:00")
        "2024-03-12T10:02:13" =
      normaliseTimestampToWindow parse1013 (fun _ => "2024-03-12T10:00:00")
        "2024-03-12T10:04:59" :=
  claim_C7_bucketing.1 parse1013 (fun _ => "2024-03-12T10:00:00")
    "2024-03-12T10:02:13" "2024-03-12T10:04:59"
    ⟨2024, 3, 12, 10, 2, 13, 0⟩ ⟨2024, 3, 12, 10, 4, 59, 0⟩
    (by rfl) (by rfl) rfl rfl rfl rfl (by decide)

/-- **C9** -/
theorem claim_C9_segment_length :
    computeSegmentLengthMeters none = none ∧
    (∀ pts : List Coordinate, pts.length < 2 →
      computeSegmentLengthMeters (some pts) = none) ∧
    (∀ pts : List Coordinate, 2 ≤ pts.length →
      computeSegmentLengthMeters (some pts) =
        some (((pts.zip pts.tail).map fun p => haversineDistanceMeters p.1 p.2).sum)) := by
  refine ⟨rfl, fun pts h => ?_, fun pts h => ?_⟩
  · simp only [computeSegmentLengthMeters, if_pos h]
  · simp only [computeSegmentLengthMeters, if_neg (not_lt.2 h), sumConsecutive_eq_zip_sum]

/-- **C9 witness** -/
theorem claim_C9_witness :
    computeSegmentLengthMeters (some [⟨45, 9⟩, ⟨46, 9⟩]) =
      some ((([(⟨45, 9⟩ : Coordinate), ⟨46, 9⟩].zip [(⟨46, 9⟩ : Coordinate)]).map
        fun p => haversineDistanceMeters p.1 p.2).sum) :=
  claim_C9_segment_length.2.2 [⟨45, 9⟩, ⟨46, 9⟩] (by simp)

/-- **C10** -/
theorem claim_C10_unparseable_identity :
    ∀ (newDate : String → Option JSDate) (toISOString : JSDate → String)
      (value : String),
      newDate value = none →
      normaliseTimestampToWindow newDate toISOString value = value := by
  intro newDate toISOString value h
  unfold normaliseTimestampToWindow
  rw [h]

/-- **C10 witness** -/
theorem claim_C10_witness :
    normaliseTimestampToWindow (fun _ => none) (fun _ => "1970-01-01T00:00:00.000Z")
      "not-a-timestamp" = "not-a-timestamp" :=
  claim_C10_unparseable_identity (fun _ => none) (fun _ => "1970-01-01T00:00:00.000Z")
    "not-a-timestamp" rfl

def testFlowModelSegment : Segment where
  id := "test-flow-model-segment"
  name := "Test Flow Model Segment"
  endpoints := [⟨45.0, 9.0⟩, ⟨45.0, 9.001⟩]
  metadata := some
    { lanes := some 1
      laneCapacityVph := some 1000
      flowModel := some { alpha := 0.3, beta := 3 } }

noncomputable def overrideTable : List SegmentMeta :=
  buildSegmentMetadata (streetSegments ++ [testFlowModelSegment])

def overrideSample : Sample := ⟨"test-flow-model-segment", some 90, some 60⟩

lemma lookup_testFlowModel :
    lookupSegmentMeta overrideTable "test-flow-model-segment" =
      some (resolveSegment testFlowModelSegment) := by
  rfl

lemma testFlowModel_capacity :
    (resolveSegment testFlowModelSegment).capacityVph = 1000 := by
  norm_num [resolveSegment, testFlowModelSegment]

/-- **C2** -/
theorem claim_C2_override_ignored :
    (deriveFlowMetricsWith overrideTable overrideSample).volumeCapacityRatio =
      some (((90 / 60 - 1 : ℝ) / BPR_ALPHA) ^ (1 / BPR_BETA)) ∧
    flowEstimationModel.alpha = BPR_ALPHA ∧ flowEstimationModel.beta = BPR_BETA ∧
    ((90 / 60 - 1 : ℝ) / BPR_ALPHA) ^ (1 / BPR_BETA) ≠
      ((90 / 60 - 1 : ℝ) / 0.3) ^ ((1 : ℝ) / 3) := by
  refine ⟨?_, rfl, rfl, ?_⟩
  · have hmain := @deriveFlow_main overrideTable overrideSample
      (resolveSegment testFlowModelSegment) 90 60 lookup_testFlowModel rfl rfl
      (by norm_num) (by norm_num) (by rw [testFlowModel_capacity]; norm_num)
    rw [hmain, rawVcr_of_lt (by norm_num)]
  · have h₁ : ((90 / 60 - 1 : ℝ) / BPR_ALPHA) ^ (1 / BPR_BETA) =
        ((10 / 3 : ℝ)) ^ ((4 : ℝ)⁻¹) := by
      norm_num [BPR_ALPHA, BPR_BETA]
    have h₂ : ((90 / 60 - 1 : ℝ) / 0.3) ^ ((1 : ℝ) / 3) =
        ((5 / 3 : ℝ)) ^ ((3 : ℝ)⁻¹) := by
      norm_num
    rw [h₁, h₂]
    have hlo : (1.3 : ℝ) < (10 / 3 : ℝ) ^ ((4 : ℝ)⁻¹) :=
      lt_rpow_quarter (by norm_num) (by norm_num)
    have hhi : ((5 / 3 : ℝ)) ^ ((3 : ℝ)⁻¹) < 1.3 :=
      rpow_third_lt (by norm_num) (by norm_num) (by norm_num)
    exact ne_of_gt (hhi.trans hlo)

/-- **C8 counterexample** -/
theorem claim_C8_counterexample :
    activeRangeOfKeys [0] .CUSTOM (some 1000) none = some (1000, 1000) ∧
    ¬((1000 : Int) ≤ 0) := by
  constructor
  · rfl
  · decide

/-- **C8 amended** -/
theorem claim_C8_range_amended :
    ∀ (earliest latest : Int) (preset : TimeWindowPreset)
      (customStart customEnd : Option Int),
      earliest ≤ latest →
      (activeRange earliest latest preset customStart customEnd).1 ≤
        (activeRange earliest latest preset customStart customEnd).2 ∧
      earliest ≤ (activeRange earliest latest preset customStart customEnd).1 ∧
      ((activeRange earliest latest preset customStart customEnd).2 ≤ latest ∨
        (activeRange earliest latest preset customStart customEnd).2 =
          (activeRange earliest latest preset customStart customEnd).1) ∧
      (preset ≠ .CUSTOM →
        (activeRange earliest latest preset customStart customEnd).1 ≤ latest ∧
        (activeRange earliest latest preset customStart customEnd).2 ≤ latest) := by
  intro earliest latest preset customStart customEnd hle
  cases preset
  case LAST_24_HOURS =>
    dsimp only [activeRange, Option.getD]
    split_ifs <;> exact ⟨by omega, by omega, by omega, fun _ => ⟨by omega, by omega⟩⟩
  case LAST_48_HOURS =>
    dsimp only [activeRange, Option.getD]
    split_ifs <;> exact ⟨by omega, by omega, by omega, fun _ => ⟨by omega, by omega⟩⟩
  case LAST_7_DAYS =>
    dsimp only [activeRange, Option.getD]
    split_ifs <;> exact ⟨by omega, by omega, by omega, fun _ => ⟨by omega, by omega⟩⟩
  case FULL_RANGE =>
    dsimp only [activeRange, Option.getD]
    split_ifs <;> exact ⟨by omega, by omega, by omega, fun _ => ⟨by omega, by omega⟩⟩
  case CUSTOM =>
    rcases customStart with _ | cs <;> rcases customEnd with _ | ce <;>
      dsimp only [activeRange, Option.getD] <;>
      split_ifs <;>
      exact ⟨by omega, by omega, by omega, fun hp => absurd rfl hp⟩

/-- **C8 amended witness** -/
theorem claim_C8_range_witness :
    (activeRange 0 5 .FULL_RANGE none none).1 ≤ (activeRange 0 5 .FULL_RANGE none none).2 ∧
    (0 : Int) ≤ (activeRange 0 5 .FULL_RANGE none none).1 ∧
    ((activeRange 0 5 .FULL_RANGE none none).2 ≤ 5 ∨
      (activeRange 0 5 .FULL_RANGE none none).2 = (activeRange 0 5 .FULL_RANGE none none).1) ∧
    (TimeWindowPreset.FULL_RANGE ≠ .CUSTOM →
      (activeRange 0 5 .FULL_RANGE none none).1 ≤ 5 ∧
      (activeRange 0 5 .FULL_RANGE none none).2 ≤ 5) :=
  claim_C8_range_amended 0 5 .FULL_RANGE none none (by decide)

end Traffic
